import Mathlib

/-!
Verification of the baysparpy core (spatially-varying Bayesian TEX86
calibration) against its natural-language specification.

The Python source is shallowly embedded: numpy float arrays become lists
or vectors of rationals, fallible code returns `Except`, and the three
external numerical routines that the algorithms treat as black boxes
(`np.linalg.solve(A, I)`, `np.linalg.cholesky`, `np.sqrt` inside
`np.random.normal`, and the trigonometric chordal-distance kernel) are
passed in as explicit function parameters.  Randomness (`np.random`)
is modelled by passing the realized standard-normal stream as an input,
exactly as the spec treats sampling ("deterministic given inputs and a
random stream").
-/

/-- Python-level error outcomes that the embedded functions can produce.
`badLatlon` is the `BadLatlonError` raised by `Draws._index_near`;
`ensembleSize` is `EnsembleSizeError(available, requested)`; `sysExit`
is the `sys.exit(...)` call in `predict_tex_analog`; `assertionError`
is a failing `assert`; `attributeError` is Python's `AttributeError`
from touching an attribute of `None` (as happens after `get_draws`
returns `None` for an unknown temperature type). -/
inductive PyErr where
  | badLatlon (latlon : ℚ × ℚ)
  | ensembleSize (available requested : ℕ)
  | sysExit
  | assertionError
  | attributeError
deriving DecidableEq

/-- Embedding of `bayspar.modelparams.core.Draws`: per-gridcell posterior
draw matrices (one row per cell, one column per MCMC draw), the shared
`tau2` draw vector, and the cell centres `locs_comp` stored in the
source's native `(lon, lat)` order.  `half_grid_space` is the attrs
field `_half_grid_space` with its source default of 10 degrees. -/
structure Draws where
  alpha_samples_comp : List (List ℚ)
  beta_samples_comp : List (List ℚ)
  tau2_samples : List ℚ
  locs_comp : List (ℚ × ℚ)
  half_grid_space : ℚ := 10
deriving DecidableEq

/-- Embedding of `Draws._index_near` (modelparams/core.py lines 59-67):
raise `BadLatlonError` unless `-90 <= lat <= 90` and `-180 < lon <= 180`,
otherwise return the indices of the cells whose centre is within
`half_grid_space` of the query on each axis independently
(`locs_comp[:, 0]` is longitude, `locs_comp[:, 1]` is latitude). -/
def Draws.index_near (d : Draws) (lat lon : ℚ) : Except PyErr (List ℕ) :=
  if ¬(-90 ≤ lat ∧ lat ≤ 90) ∨ ¬(-180 < lon ∧ lon ≤ 180) then
    .error (.badLatlon (lat, lon))
  else
    .ok ((List.range d.locs_comp.length).filter fun i =>
      decide (|(d.locs_comp.getD i (0, 0)).1 - lon| ≤ d.half_grid_space ∧
              |(d.locs_comp.getD i (0, 0)).2 - lat| ≤ d.half_grid_space))

/-- Embedding of numpy's `squeeze` step in `Draws.find_nearest_latlon`
(modelparams/core.py lines 69-75): with exactly one matching cell the
stored `(lon, lat)` row is flipped to `(lat, lon)`.  Zero or multiple
matches leave a differently-shaped array in the source (squeeze only
removes singleton axes) and every downstream use is degenerate; the
embedding keeps the first match (or `(0, 0)`) in that case. -/
def Draws.find_nearest_latlon (d : Draws) (lat lon : ℚ) :
    Except PyErr (ℚ × ℚ) := do
  let idx ← d.index_near lat lon
  let p := d.locs_comp.getD (idx.headD 0) (0, 0)
  return (p.2, p.1)

/-- Embedding of `Draws.find_alphabeta_near` (modelparams/core.py lines
77-83): select the matched cells' rows of `alpha_samples_comp` and
`beta_samples_comp`.  With exactly one match numpy's squeeze yields that
single row, which is the only shape the callers can use; the embedding
concatenates the selected rows, which agrees with the single-match case. -/
def Draws.find_alphabeta_near (d : Draws) (lat lon : ℚ) :
    Except PyErr (List ℚ × List ℚ) := do
  let idx ← d.index_near lat lon
  let alpha_select := (idx.map fun i => d.alpha_samples_comp.getD i []).flatten
  let beta_select := (idx.map fun i => d.beta_samples_comp.getD i []).flatten
  return (alpha_select, beta_select)

/-- Clip a rational to `[0, 1]`: the elementwise effect of the masked
assignments `tex[tex > 1] = 1; tex[tex < 0] = 0` in predict.py. -/
def clip01 (q : ℚ) : ℚ := if 1 < q then 1 else if q < 0 then 0 else q

/-- Arithmetic mean of a list, as numpy's `ndarray.mean` (sum divided by
length; the source never takes the mean of an empty array on the paths
modelled here, and numpy would produce NaN there). -/
def listMean (l : List ℚ) : ℚ := l.sum / l.length

/-- Python's built-in `round` on a non-negative value: round half to even
(banker's rounding), as used for the downsampling stride in
`predict_tex_analog` (`ds = round(float(iters)/nens)`). -/
def pythonRound (q : ℚ) : ℤ :=
  let f := ⌊q⌋
  let r := q - f
  if r < 1/2 then f else if 1/2 < r then f + 1 else if f % 2 = 0 then f else f + 1

/-- Embedding of `np.arange(0, stop, step)` for a positive integer step:
the `⌈stop/step⌉` multiples of `step` below `stop`.  (`step = 0` raises
ValueError in numpy and is never reached by the guarded callers.) -/
def npArange (stop step : ℕ) : List ℕ :=
  (List.range ((stop + step - 1) / step)).map (· * step)

/-- Embedding of `bayspar.observations.core.ObsField` (and the identical
`SeaTempObs` of tests/core_observationsold.py): climatology observation
values paired with their locations, stored in `(lon, lat)` order. -/
structure ObsField where
  st_obs_ave_vec : List ℚ
  locs_st_obs : List (ℚ × ℚ)
deriving DecidableEq

/-- Embedding of `TexObs` (tests/core_observationsold.py): per-region
proxy observation stack.  `locs` holds each large region's representative
location in `(lon, lat)` order; `inds_stack` maps each entry of
`obs_stack` to its 1-based region index.  `obslocs` is carried by the
source class but unused by the search. -/
structure TexObs where
  locs : List (ℚ × ℚ)
  obs_stack : List ℚ
  inds_stack : List ℕ
  obslocs : List (ℚ × ℚ)
deriving DecidableEq

/-- Observations of the stack belonging to 1-based region index `k`:
the source's boolean-mask selection `self.obs_stack[self.inds_stack == kk]`
(the two stacks have equal length in valid data; `zip` truncates). -/
def TexObs.regionObs (o : TexObs) (k : ℕ) : List ℚ :=
  (o.obs_stack.zip o.inds_stack).filterMap fun p =>
    if p.2 = k then some p.1 else none

/-- Embedding of `TexObs.find_within_tolerance` (core_observationsold.py
lines 181-219): for each 1-based region index `kk` in order, compute the
mean of that region's stacked observations and keep the region when the
mean lies in `[x - tolerance, x + tolerance]`; return the matched
locations flipped from `(lon, lat)` storage to `(lat, lon)` and the
matched means.  A region with no observations has NaN mean in numpy and
fails both bound checks, hence the nonemptiness conjunct. -/
def TexObs.find_within_tolerance (o : TexObs) (x tolerance : ℚ) :
    List (ℚ × ℚ) × List ℚ :=
  let matched := (List.range o.locs.length).filter fun j =>
    let vals := o.regionObs (j + 1)
    decide (vals ≠ [] ∧ x - tolerance ≤ listMean vals ∧
            listMean vals ≤ x + tolerance)
  (matched.map fun j => ((o.locs.getD j (0, 0)).2, (o.locs.getD j (0, 0)).1),
   matched.map fun j => listMean (o.regionObs (j + 1)))

/-- Modelled from the spec: `find_t_within_tolerance`, called by
`predict_tex_analog`, is not among the provided source files (only its
caller and the older two-output `find_within_tolerance` are).  Per the
spec's `analogMatches` contract it performs the same tolerance search on
the mean temperature observations of each region and additionally
returns the matched 0-based region indices `inder_g` used to index the
draw arrays. -/
def TexObs.find_t_within_tolerance (o : TexObs) (t tolerance : ℚ) :
    List (ℚ × ℚ) × List ℚ × List ℕ :=
  let matched := (List.range o.locs.length).filter fun j =>
    let vals := o.regionObs (j + 1)
    decide (vals ≠ [] ∧ t - tolerance ≤ listMean vals ∧
            listMean vals ≤ t + tolerance)
  ((matched.map fun j => ((o.locs.getD j (0, 0)).2, (o.locs.getD j (0, 0)).1)),
   matched.map (fun j => listMean (o.regionObs (j + 1))), matched)

/-- Process-wide loaded reference data: the four module-level `Draws`
singletons of modelparams/core.py, the observation stores, and the
external trigonometric chordal-distance kernel `chord_distance`
(a haversine-style formula on a sphere of radius 6378.137 km), which the
search logic treats as a black-box distance between a `(lat, lon)` query
and a `(lat, lon)` observation point. -/
structure Env where
  draws_sst : Draws
  draws_subt : Draws
  draws_sst_analog : Draws
  draws_subt_analog : Draws
  seatemp_sst : ObsField
  seatemp_subt : ObsField
  tex_sst : TexObs
  tex_subt : TexObs
  chordDist : ℚ × ℚ → ℚ × ℚ → ℚ

/-- Embedding of `get_draws` (modelparams/core.py lines 109-115): an
`if/elif` with no `else`, so any unknown draw type falls through and the
function returns `None`.  (The `deepcopy` is immaterial in a pure model.) -/
def get_draws (e : Env) (drawtype : String) : Option Draws :=
  if drawtype = "sst" then some e.draws_sst
  else if drawtype = "subt" then some e.draws_subt
  else none

/-- Embedding of `get_draws_analog` (modelparams/core.py lines 128-134),
returning the analog draw singletons; unknown types again give `None`. -/
def get_draws_analog (e : Env) (drawtype : String) : Option Draws :=
  if drawtype = "sst" then some e.draws_sst_analog
  else if drawtype = "subt" then some e.draws_subt_analog
  else none

/-- Embedding of `get_seatemp` (core_observationsold.py lines 228-233). -/
def get_seatemp (e : Env) (obstype : String) : Option ObsField :=
  if obstype = "sst" then some e.seatemp_sst
  else if obstype = "subt" then some e.seatemp_subt
  else none

/-- Embedding of `get_tex` (core_observationsold.py lines 236-241). -/
def get_tex (e : Env) (obstype : String) : Option TexObs :=
  if obstype = "sst" then some e.tex_sst
  else if obstype = "subt" then some e.tex_subt
  else none

/-- In Python, using the `None` returned for an unknown temperature type
as if it were a loaded object raises `AttributeError` at the first
attribute access (`draws.alpha_samples_comp`); the embedding surfaces
that as `PyErr.attributeError` at the point of use. -/
def noneIsAttributeError : Option α → Except PyErr α
  | some a => .ok a
  | none => .error .attributeError

/-- Embedding of the `Prediction` attrs class of predict.py for the
two-dimensional ensembles (time steps × ensemble members). -/
structure Prediction where
  temptype : String
  ensemble : List (List ℚ)
  latlon : Option (ℚ × ℚ) := none
  prior_mean : Option ℚ := none
  prior_std : Option ℚ := none
  modelparam_gridpoints : Option (List (ℚ × ℚ)) := none
  analog_gridpoints : Option (List (ℚ × ℚ)) := none
deriving DecidableEq

/-- The `Prediction` class as instantiated by `predict_seatemp_analog`,
whose ensemble is three-dimensional: time steps × matched locations ×
ensemble members (the source uses the same attrs class for every rank). -/
structure PredictionAnalog where
  temptype : String
  ensemble : List (List (List ℚ))
  prior_mean : Option ℚ := none
  prior_std : Option ℚ := none
  analog_gridpoints : List (ℚ × ℚ) := []
deriving DecidableEq

/-- Number of posterior draws per cell, the source's
`draws.alpha_samples_comp.shape[1]` (numpy arrays are rectangular, so the
first row's length is the column count). -/
def Draws.ntk (d : Draws) : ℕ := (d.alpha_samples_comp.headD []).length

/-- Embedding of `predict_tex` (predict.py lines 199-250).  `sqrtFn`
stands for `np.sqrt` and `z t i` for the standard-normal draw consumed at
time step `t` for ensemble member `i`, so that
`np.random.normal(m, s) = m + s * z`. -/
def predict_tex (e : Env) (sqrtFn : ℚ → ℚ) (z : ℕ → ℕ → ℚ)
    (seatemp : List ℚ) (lat lon : ℚ) (temptype : String) (nens : ℕ) :
    Except PyErr Prediction := do
  let draws ← noneIsAttributeError (get_draws e temptype)
  let nd := seatemp.length
  let ntk := draws.ntk
  if ntk < nens then throw (.ensembleSize ntk nens)
  let ab ← draws.find_alphabeta_near lat lon
  let tau2 := draws.tau2_samples
  let grid ← draws.find_nearest_latlon lat lon
  let tex := (List.range nd).map fun t => (List.range nens).map fun i =>
    clip01 (seatemp.getD t 0 * ab.2.getD i 0 + ab.1.getD i 0 +
            sqrtFn (tau2.getD i 0) * z t i)
  return { temptype := temptype, ensemble := tex, latlon := some (lat, lon),
           modelparam_gridpoints := some [grid] }

/-- Pooling step of `predict_tex_analog` (predict.py lines 157-168):
stack the matched regions' alpha/beta draw rows into flat pools and tile
the shared tau2 draws `int(rows*cols/len(tau2))` times to match. -/
def texAnalogPool (draws : Draws) (inder_g : List ℕ) :
    List ℚ × List ℚ × List ℚ :=
  let alpha_samples1 := inder_g.map fun i => draws.alpha_samples_comp.getD i []
  let beta_samples1 := inder_g.map fun i => draws.beta_samples_comp.getD i []
  let tau2_sample_reshapen :=
    alpha_samples1.length * (alpha_samples1.headD []).length /
      draws.tau2_samples.length
  (alpha_samples1.flatten, beta_samples1.flatten,
   (List.replicate tau2_sample_reshapen draws.tau2_samples).flatten)

/-- Downsampling stride of `predict_tex_analog` (predict.py line 172):
`ds = round(float(iters)/nens)` with Python's round-half-to-even. -/
def texAnalogStride (poolSize nens : ℕ) : ℕ :=
  (pythonRound ((poolSize : ℚ) / nens)).toNat

/-- Strided subsample index set of `predict_tex_analog` (line 173):
`dsarray = np.arange(0, poolSize, ds)`. -/
def texAnalogSubsampleIdx (poolSize nens : ℕ) : List ℕ :=
  npArange poolSize (texAnalogStride poolSize nens)

/-- Embedding of `predict_tex_analog` (predict.py lines 121-196).  The
zero-analog case calls `sys.exit(...)`, modelled as `PyErr.sysExit`.
Note the source's ensemble loop runs `nens` times regardless of how many
entries the strided subsample has; indexing past its end would raise
IndexError, which the `getD` totalization papers over — no theorem below
relies on that regime. -/
def predict_tex_analog (e : Env) (sqrtFn : ℚ → ℚ) (z : ℕ → ℕ → ℚ)
    (seatemp : List ℚ) (temptype : String) (search_tol : ℚ) (nens : ℕ) :
    Except PyErr Prediction := do
  let draws ← noneIsAttributeError (get_draws_analog e temptype)
  let tex_obs ← noneIsAttributeError (get_tex e temptype)
  let nd := seatemp.length
  let ntk := draws.ntk
  if ntk < nens then throw (.ensembleSize ntk nens)
  let found := tex_obs.find_t_within_tolerance (listMean seatemp) search_tol
  if found.2.2 = [] then throw .sysExit
  let pool := texAnalogPool draws found.2.2
  let dsarray := texAnalogSubsampleIdx pool.1.length nens
  let alpha_samples3 := dsarray.map fun j => pool.1.getD j 0
  let beta_samples3 := dsarray.map fun j => pool.2.1.getD j 0
  let tau2_samples3 := dsarray.map fun j => pool.2.2.getD j 0
  let tex := (List.range nd).map fun t => (List.range nens).map fun i =>
    clip01 (seatemp.getD t 0 * beta_samples3.getD i 0 +
            alpha_samples3.getD i 0 + sqrtFn (tau2_samples3.getD i 0) * z t i)
  return { temptype := temptype, ensemble := tex,
           analog_gridpoints := some found.1 }

/-- Sample drawset with a single cell centred at `(lon, lat) = (-100, 8)`,
used to exercise the gridcell lookup on concrete inputs. -/
def sampleLookupDraws : Draws := ⟨[[]], [[]], [], [(-100, 8)], 10⟩

/-- C4: for every query, `Draws._index_near` raises `BadLatlonError`
exactly when `lat` is outside `[-90, 90]` or `lon` is outside
`(-180, 180]`; on valid coordinates it returns (without crashing,
possibly empty) exactly the indices of cells whose stored centre is
within 10 degrees of the query on each axis independently, with no
wraparound handling. -/
theorem index_near_characterization (d : Draws) (lat lon : ℚ)
    (h10 : d.half_grid_space = 10) :
    ((-90 ≤ lat ∧ lat ≤ 90 ∧ -180 < lon ∧ lon ≤ 180) →
      ∃ l, d.index_near lat lon = .ok l ∧
        ∀ i, i ∈ l ↔ i < d.locs_comp.length ∧
          |(d.locs_comp.getD i (0, 0)).2 - lat| ≤ 10 ∧
          |(d.locs_comp.getD i (0, 0)).1 - lon| ≤ 10) ∧
    (¬(-90 ≤ lat ∧ lat ≤ 90 ∧ -180 < lon ∧ lon ≤ 180) →
      d.index_near lat lon = .error (.badLatlon (lat, lon))) := by
  constructor
  · rintro ⟨h1, h2, h3, h4⟩
    refine ⟨(List.range d.locs_comp.length).filter fun i =>
      decide (|(d.locs_comp.getD i (0, 0)).1 - lon| ≤ d.half_grid_space ∧
              |(d.locs_comp.getD i (0, 0)).2 - lat| ≤ d.half_grid_space), ?_, ?_⟩
    · have hc : ¬(¬(-90 ≤ lat ∧ lat ≤ 90) ∨ ¬(-180 < lon ∧ lon ≤ 180)) := by
        push_neg
        exact ⟨⟨h1, h2⟩, h3, h4⟩
      unfold Draws.index_near
      rw [if_neg hc]
    · intro i
      simp only [List.mem_filter, List.mem_range, decide_eq_true_eq, h10]
      tauto
  · intro h
    have hc : ¬(-90 ≤ lat ∧ lat ≤ 90) ∨ ¬(-180 < lon ∧ lon ≤ 180) := by tauto
    unfold Draws.index_near
    rw [if_pos hc]

/-- Embedding of `target_timeseries_pred` (utils.py lines 7-44), the
conjugate-normal conditional sampler for an `n`-length series.  `solve`
stands for the external routine `A ↦ np.linalg.solve(A, np.eye(n))`
(the matrix inverse computed by a stable linear solve) and `chol` for
`np.linalg.cholesky`; `z` is the realized `np.random.randn(n)` vector.
The body follows the source line by line. -/
def target_timeseries_pred (n : ℕ)
    (solve chol : Matrix (Fin n) (Fin n) ℚ → Matrix (Fin n) (Fin n) ℚ)
    (alpha_now beta_now tau2_now : ℚ) (proxy_ts prior_mu : Fin n → ℚ)
    (prior_inv_cov : Matrix (Fin n) (Fin n) ℚ) (z : Fin n → ℚ) : Fin n → ℚ :=
  let inv_post_cov := prior_inv_cov +
    (beta_now ^ 2 / tau2_now) • (1 : Matrix (Fin n) (Fin n) ℚ)
  let post_cov := solve inv_post_cov
  let sqrt_post_cov := (chol post_cov).transpose
  let mean_first_factor := prior_inv_cov.mulVec prior_mu +
    ((1 / tau2_now) * beta_now) • (proxy_ts - fun _ => alpha_now)
  let mean_full := post_cov.mulVec mean_first_factor
  mean_full + sqrt_post_cov.mulVec z

/-- The spec's ConditionalSampler algorithm, written exactly from its
five numbered steps: `postInvCov = Σ⁻¹ + (β²/τ²)·I`, `postCov` by the
linear solve, `meanNumerator = Σ⁻¹·μ + (β/τ²)·(x − α·1)`,
`postMean = postCov·meanNumerator`, output `postMean + chol(postCov)ᵀ·z`. -/
def conditionalSamplerSpec (n : ℕ)
    (solve chol : Matrix (Fin n) (Fin n) ℚ → Matrix (Fin n) (Fin n) ℚ)
    (alpha beta tau2 : ℚ) (x mu : Fin n → ℚ)
    (invCov : Matrix (Fin n) (Fin n) ℚ) (z : Fin n → ℚ) : Fin n → ℚ :=
  let postInvCov := invCov + (beta ^ 2 / tau2) • (1 : Matrix (Fin n) (Fin n) ℚ)
  let postCov := solve postInvCov
  let meanNumerator := invCov.mulVec mu +
    (beta / tau2) • (x - alpha • fun _ => (1 : ℚ))
  let postMean := postCov.mulVec meanNumerator
  postMean + (chol postCov).transpose.mulVec z

/-- Comparison of pairs by their first component (the distance), the key
order used to embed `np.argsort` over the distance vector. -/
def distLE (p q : ℚ × ℚ) : Prop := p.1 ≤ q.1

instance : DecidableRel distLE := fun p q => inferInstanceAs (Decidable (p.1 ≤ q.1))

instance : IsTotal (ℚ × ℚ) distLE := ⟨fun a b => le_total a.1 b.1⟩

instance : IsTrans (ℚ × ℚ) distLE := ⟨fun _ _ _ => le_trans⟩

/-- Embedding of `ObsField.distance_from` (observations/core.py lines
84-102): the chordal distance from the query to every stored climatology
point, flipping the stored `(lon, lat)` to `(lat, lon)` first. -/
def ObsField.distance_from (f : ObsField) (cd : ℚ × ℚ → ℚ × ℚ → ℚ)
    (lat lon : ℚ) : List ℚ :=
  f.locs_st_obs.map fun p => cd (lat, lon) (p.2, p.1)

/-- Embedding of `ObsField.get_close_obs` (observations/core.py lines
104-147, identical to `SeaTempObs.get_close_obs` of
core_observationsold.py): sort observations by distance (`np.argsort`,
modelled as a sort of (distance, value) pairs by distance); assert at
least one observation lies strictly within `distance`; if the in-buffer
count strictly exceeds `min_obs` return all in-buffer observations,
otherwise the `min_obs` nearest; return values first, distances second. -/
def ObsField.get_close_obs (f : ObsField) (cd : ℚ × ℚ → ℚ × ℚ → ℚ)
    (lat lon distance : ℚ) (min_obs : ℕ) : Except PyErr (List ℚ × List ℚ) :=
  let d := f.distance_from cd lat lon
  if d.length ≠ f.st_obs_ave_vec.length then .error .assertionError else
  let pairs := List.insertionSort distLE (d.zip f.st_obs_ave_vec)
  let n_in_buffer := (d.filter fun x => decide (x < distance)).length
  if n_in_buffer = 0 then .error .assertionError
  else if min_obs < n_in_buffer then
    .ok ((pairs.filter fun p => decide (p.1 < distance)).map Prod.snd,
         (pairs.filter fun p => decide (p.1 < distance)).map Prod.fst)
  else
    .ok ((pairs.take min_obs).map Prod.snd, (pairs.take min_obs).map Prod.fst)

/-- Embedding of `predict_seatemp` (predict.py lines 253-317).  `solve`
and `chol` are the size-indexed external linear-algebra routines passed
through to `target_timeseries_pred`; `z jj` is the standard-normal
vector consumed by ensemble member `jj`'s sampler call. -/
def predict_seatemp (e : Env)
    (solve chol : (n : ℕ) → Matrix (Fin n) (Fin n) ℚ → Matrix (Fin n) (Fin n) ℚ)
    (z : ℕ → ℕ → ℚ) (tex : List ℚ) (lat lon prior_std : ℚ)
    (temptype : String) (prior_mean : Option ℚ) (nens : ℕ) :
    Except PyErr Prediction := do
  let draws ← noneIsAttributeError (get_draws e temptype)
  let obs ← noneIsAttributeError (get_seatemp e temptype)
  let nd := tex.length
  let ntk := draws.ntk
  if ntk < nens then throw (.ensembleSize ntk nens)
  let pm ← match prior_mean with
    | some m => pure m
    | none => do
        let co ← obs.get_close_obs e.chordDist lat lon 500 1
        pure (listMean co.1)
  let ab ← draws.find_alphabeta_near lat lon
  let tau2 := draws.tau2_samples
  let grid ← draws.find_nearest_latlon lat lon
  let prior_mu : Fin nd → ℚ := fun _ => pm
  let prior_inv_cov : Matrix (Fin nd) (Fin nd) ℚ := prior_std ^ (-2 : ℤ) • 1
  let preds := List.ofFn fun t : Fin nd => (List.range nens).map fun jj =>
    target_timeseries_pred nd (solve nd) (chol nd) (ab.1.getD jj 0)
      (ab.2.getD jj 0) (tau2.getD jj 0) (fun s => tex.getD s 0) prior_mu
      prior_inv_cov (fun s => z jj s) t
  return { temptype := temptype, ensemble := preds, latlon := some (lat, lon),
           prior_mean := some pm, prior_std := some prior_std,
           modelparam_gridpoints := some [grid] }

/-- Embedding of `predict_seatemp_analog` (predict.py lines 320-390).
`prior_mean` is typed as required here because the source multiplies it
into `np.ones(nd)` unconditionally (passing `None` is a TypeError).
`z kk jj` is the standard-normal vector consumed for matched location
`kk`, ensemble member `jj`.  The tqdm progress bar has no semantic
effect and is omitted.  Note there is no zero-match check: with no
analogs the ensemble's middle axis is simply empty. -/
def predict_seatemp_analog (e : Env)
    (solve chol : (n : ℕ) → Matrix (Fin n) (Fin n) ℚ → Matrix (Fin n) (Fin n) ℚ)
    (z : ℕ → ℕ → ℕ → ℚ) (tex : List ℚ) (prior_std : ℚ) (temptype : String)
    (search_tol prior_mean : ℚ) (nens : ℕ) : Except PyErr PredictionAnalog := do
  let draws ← noneIsAttributeError (get_draws e temptype)
  let tex_obs ← noneIsAttributeError (get_tex e temptype)
  let nd := tex.length
  let ntk := draws.ntk
  if ntk < nens then throw (.ensembleSize ntk nens)
  let found := tex_obs.find_within_tolerance (listMean tex) search_tol
  let latlon_match := found.1
  let prior_mu : Fin nd → ℚ := fun _ => prior_mean
  let prior_inv_cov : Matrix (Fin nd) (Fin nd) ℚ := prior_std ^ (-2 : ℤ) • 1
  let ab_list ← latlon_match.mapM fun ll => draws.find_alphabeta_near ll.1 ll.2
  let preds := List.ofFn fun t : Fin nd =>
    (List.range latlon_match.length).map fun kk =>
      (List.range nens).map fun jj =>
        let ab := ab_list.getD kk ([], [])
        target_timeseries_pred nd (solve nd) (chol nd) (ab.1.getD jj 0)
          (ab.2.getD jj 0) (draws.tau2_samples.getD jj 0)
          (fun s => tex.getD s 0) prior_mu prior_inv_cov
          (fun s => z kk jj s) t
  return { temptype := temptype, ensemble := preds,
           prior_mean := some prior_mean, prior_std := some prior_std,
           analog_gridpoints := latlon_match }

/-- The 2-D ensemble of a prediction outcome; an aborted call has no
ensemble at all, rendered as the empty list. -/
def ensembleOf : Except PyErr Prediction → List (List ℚ)
  | .ok p => p.ensemble
  | .error _ => []

/-- Boolean check that every entry of a 2-D ensemble lies in `[0, 1]`. -/
def allIn01 (ll : List (List ℚ)) : Bool :=
  ll.all fun r => r.all fun v => decide (0 ≤ v ∧ v ≤ 1)

/-- Whether an outcome is specifically an `EnsembleSizeError`. -/
def isEnsembleSizeError : Except PyErr α → Bool
  | .error (.ensembleSize _ _) => true
  | _ => false

/-- Concrete loaded reference data used to exercise the prediction calls:
one gridcell at the origin with a single draw `(alpha, beta, tau2) =
(0, 1, 1)` for the standard sets; seven draws with `beta = tau2 = 0` for
the analog sets; one climatology observation of value 2; one proxy region
at `(lon, lat) = (5, 5)` whose single stacked observation is 0; and a
constant chordal distance of 1 km. -/
def sampleEnv : Env where
  draws_sst := ⟨[[0]], [[1]], [1], [(0, 0)], 10⟩
  draws_subt := ⟨[[0]], [[1]], [1], [(0, 0)], 10⟩
  draws_sst_analog :=
    ⟨[[0, 1/10, 1/5, 3/10, 2/5, 1/2, 3/5]], [[0, 0, 0, 0, 0, 0, 0]],
     [0, 0, 0, 0, 0, 0, 0], [(0, 0)], 10⟩
  draws_subt_analog :=
    ⟨[[0, 1/10, 1/5, 3/10, 2/5, 1/2, 3/5]], [[0, 0, 0, 0, 0, 0, 0]],
     [0, 0, 0, 0, 0, 0, 0], [(0, 0)], 10⟩
  seatemp_sst := ⟨[2], [(0, 0)]⟩
  seatemp_subt := ⟨[2], [(0, 0)]⟩
  tex_sst := ⟨[(5, 5)], [0], [1], []⟩
  tex_subt := ⟨[(5, 5)], [0], [1], []⟩
  chordDist := fun _ _ => 1

/-- Climatology field with a single observation, for exercising
`get_close_obs` on concrete inputs. -/
def sampleObsField : ObsField := ⟨[25], [(0, 0)]⟩

/-- Trivial stand-in for the external linear solve: every call returns
the all-ones square matrix (the algebraic claims hold for any solver). -/
def solveOne : (n : ℕ) → Matrix (Fin n) (Fin n) ℚ → Matrix (Fin n) (Fin n) ℚ :=
  fun _ _ => 1

/-- Trivial stand-in for the external Cholesky factorization. -/
def cholOne : (n : ℕ) → Matrix (Fin n) (Fin n) ℚ → Matrix (Fin n) (Fin n) ℚ :=
  fun _ _ => 1

/-- Identity stand-in for `np.sqrt` on the concrete inputs used below
(which keep every variance at 0 or 1, where it is exact). -/
def sqrtId : ℚ → ℚ := fun q => q

/-- An all-zero realized standard-normal stream (two indices). -/
def zZero2 : ℕ → ℕ → ℚ := fun _ _ => 0

/-- An all-zero realized standard-normal stream (three indices). -/
def zZero3 : ℕ → ℕ → ℕ → ℚ := fun _ _ _ => 0

/-- The (alpha, beta, tau2) pool produced by `texAnalogPool` on the
sample environment's analog draws with its single matched region. -/
def samplePool : List ℚ × List ℚ × List ℚ :=
  ([0, 1/10, 1/5, 3/10, 2/5, 1/2, 3/5], [0, 0, 0, 0, 0, 0, 0],
   [0, 0, 0, 0, 0, 0, 0])

/-- The prediction returned by `predict_seatemp` on the sample
environment for an empty proxy series at the origin with
`prior_std = 1`, `prior_mean = None` and `nens = 1`: the prior mean is
estimated as the single close observation 2 and recorded together with
the prior standard deviation; the ensemble has zero time steps. -/
def sampleSeatempPrediction : Prediction :=
  { temptype := "sst", ensemble := [], latlon := some (0, 0),
    prior_mean := some 2, prior_std := some 1,
    modelparam_gridpoints := some [(0, 0)] }

/-- The prediction returned by `predict_tex_analog` on the sample
environment for the one-step series `[0]` with `nens = 5`: the pool has
7 entries, the stride is `round(7/5) = 1`, and only the first 5
subsampled draws are consumed (the ensemble row has 5 members, each the
clipped alpha draw since beta, tau2 and the random stream are zero). -/
def sampleTexAnalogPrediction : Prediction :=
  { temptype := "sst", ensemble := [[0, 1/10, 1/5, 3/10, 2/5]],
    analog_gridpoints := some [(5, 5)] }

/-- Witness for C4 at a concrete drawset: the query `(2, -100)` against a
single cell centred at `(lon, lat) = (-100, 8)` matches (both offsets at
most 10), and the out-of-range query latitude 91 raises `BadLatlonError`. -/
theorem index_near_characterization_witness :
    ((-90 ≤ (2 : ℚ) ∧ (2 : ℚ) ≤ 90 ∧ -180 < (-100 : ℚ) ∧ (-100 : ℚ) ≤ 180) →
      ∃ l, sampleLookupDraws.index_near 2 (-100) = .ok l ∧
        ∀ i, i ∈ l ↔ i < sampleLookupDraws.locs_comp.length ∧
          |(sampleLookupDraws.locs_comp.getD i (0, 0)).2 - 2| ≤ 10 ∧
          |(sampleLookupDraws.locs_comp.getD i (0, 0)).1 - -100| ≤ 10) ∧
    sampleLookupDraws.index_near 91 (-100) = .error (.badLatlon (91, -100)) :=
  ⟨(index_near_characterization sampleLookupDraws 2 (-100) rfl).1,
    (index_near_characterization sampleLookupDraws 91 (-100) rfl).2
      (by norm_num)⟩

/-- C3: `target_timeseries_pred` computes exactly the conjugate-normal
update of the spec — for every prior, draw, series and realized normal
vector (and any external solve/Cholesky routines), the source's
computation agrees with the spec's five-step `ConditionalSampler`
algorithm; the output is a total function of these inputs, hence
deterministic with no branches. -/
theorem target_timeseries_pred_eq_spec (n : ℕ)
    (solve chol : Matrix (Fin n) (Fin n) ℚ → Matrix (Fin n) (Fin n) ℚ)
    (alpha beta tau2 : ℚ) (x mu : Fin n → ℚ)
    (invCov : Matrix (Fin n) (Fin n) ℚ) (z : Fin n → ℚ) :
    target_timeseries_pred n solve chol alpha beta tau2 x mu invCov z =
      conditionalSamplerSpec n solve chol alpha beta tau2 x mu invCov z := by
  unfold target_timeseries_pred conditionalSamplerSpec
  have h1 : (fun _ : Fin n => alpha) = alpha • fun _ : Fin n => (1 : ℚ) := by
    funext s
    simp
  have h2 : (1 / tau2) * beta = beta / tau2 := by
    rw [one_div, inv_mul_eq_div]
  rw [h1, h2]

/-- Helper: the only error `_index_near` can raise is `BadLatlonError`
for the query coordinates. -/
theorem index_near_error_shape (d : Draws) (lat lon : ℚ) (pe : PyErr)
    (h : d.index_near lat lon = .error pe) : pe = .badLatlon (lat, lon) := by
  unfold Draws.index_near at h
  split at h
  · cases h
    rfl
  · cases h

/-- Helper: the only error `find_alphabeta_near` can raise is
`BadLatlonError`. -/
theorem find_alphabeta_error_shape (d : Draws) (lat lon : ℚ) (pe : PyErr)
    (h : d.find_alphabeta_near lat lon = .error pe) :
    pe = .badLatlon (lat, lon) := by
  unfold Draws.find_alphabeta_near at h
  cases hin : d.index_near lat lon with
  | error e2 =>
    rw [hin] at h
    cases h
    exact index_near_error_shape d lat lon pe hin
  | ok idx =>
    rw [hin] at h
    cases h

/-- Helper: the only error `find_nearest_latlon` can raise is
`BadLatlonError`. -/
theorem find_nearest_error_shape (d : Draws) (lat lon : ℚ) (pe : PyErr)
    (h : d.find_nearest_latlon lat lon = .error pe) :
    pe = .badLatlon (lat, lon) := by
  unfold Draws.find_nearest_latlon at h
  cases hin : d.index_near lat lon with
  | error e2 =>
    rw [hin] at h
    cases h
    exact index_near_error_shape d lat lon pe hin
  | ok idx =>
    rw [hin] at h
    cases h

/-- Helper: clipping really lands in the unit interval. -/
theorem clip01_nonneg (q : ℚ) : 0 ≤ clip01 q := by
  unfold clip01
  split_ifs with h1 h2
  · norm_num
  · norm_num
  · linarith

/-- Helper: clipping is bounded above by one. -/
theorem clip01_le_one (q : ℚ) : clip01 q ≤ 1 := by
  unfold clip01
  split_ifs with h1 h2
  · norm_num
  · norm_num
  · linarith

/-- Helper: bind on an ok value reduces. -/
theorem exBind_ok {ε α β : Type} (a : α) (f : α → Except ε β) :
    (Except.ok a >>= f) = f a := rfl

/-- Helper: bind on an error short-circuits. -/
theorem exBind_error {ε α β : Type} (e : ε) (f : α → Except ε β) :
    (Except.error e >>= f) = Except.error e := rfl

/-- Helper: throw is the error constructor. -/
theorem exThrow {ε α : Type} (e : ε) : (throw e : Except ε α) = Except.error e := rfl

/-- Helper: pure is the ok constructor. -/
theorem exPure {ε α : Type} (a : α) : (pure a : Except ε α) = Except.ok a := rfl

/-- Helper: a time-by-member grid of clipped values is entirely inside
the unit interval. -/
theorem allIn01_clip_grid (nd nens : ℕ) (f : ℕ → ℕ → ℚ) :
    allIn01 ((List.range nd).map fun t =>
      (List.range nens).map fun i => clip01 (f t i)) = true := by
  simp only [allIn01, List.all_eq_true, List.mem_map]
  rintro r ⟨t, ht, rfl⟩
  simp only [List.all_eq_true, List.mem_map]
  rintro v ⟨i, hi, rfl⟩
  exact decide_eq_true ⟨clip01_nonneg _, clip01_le_one _⟩

/-- C8: every entry of the ensemble returned by a forward-mode
prediction (`predict_tex` and `predict_tex_analog`) lies in `[0, 1]`,
for every environment, input series, coordinate, draw set, realized
random stream and ensemble size (an aborted call has no ensemble). -/
theorem forward_output_in_unit_interval :
    (∀ (e : Env) (sqrtFn : ℚ → ℚ) (z : ℕ → ℕ → ℚ) (st : List ℚ)
       (lat lon : ℚ) (tt : String) (nens : ℕ),
       allIn01 (ensembleOf (predict_tex e sqrtFn z st lat lon tt nens)) = true) ∧
    (∀ (e : Env) (sqrtFn : ℚ → ℚ) (z : ℕ → ℕ → ℚ) (st : List ℚ)
       (tt : String) (tol : ℚ) (nens : ℕ),
       allIn01 (ensembleOf (predict_tex_analog e sqrtFn z st tt tol nens)) = true) := by
  constructor
  · intro e sqrtFn z st lat lon tt nens
    unfold predict_tex
    cases hgd : get_draws e tt with
    | none => simp [noneIsAttributeError, exBind_error, ensembleOf, allIn01]
    | some d =>
      simp only [noneIsAttributeError, exBind_ok]
      split
      · simp [exThrow, exBind_error, ensembleOf, allIn01]
      · cases hab : d.find_alphabeta_near lat lon with
        | error pe => simp [exBind_error, ensembleOf, allIn01]
        | ok ab =>
          simp only [exBind_ok]
          cases hg : d.find_nearest_latlon lat lon with
          | error pe => simp [exBind_error, ensembleOf, allIn01]
          | ok g =>
            simp only [exBind_ok, exPure, ensembleOf]
            exact allIn01_clip_grid _ _ _
  · intro e sqrtFn z st tt tol nens
    unfold predict_tex_analog
    cases hgd : get_draws_analog e tt with
    | none => simp [noneIsAttributeError, exBind_error, ensembleOf, allIn01]
    | some d =>
      simp only [noneIsAttributeError, exBind_ok]
      cases hgt : get_tex e tt with
      | none => simp [noneIsAttributeError, exBind_error, ensembleOf, allIn01]
      | some o =>
        simp only [noneIsAttributeError, exBind_ok]
        split
        · simp [exThrow, exBind_error, ensembleOf, allIn01]
        · split
          · simp [exThrow, exBind_error, ensembleOf, allIn01]
          · simp only [exBind_ok, exPure, ensembleOf]
            exact allIn01_clip_grid _ _ _

/-- C9 (amended): there is no distinct `UnknownTemperatureType` error in
the code — for any temperature type other than `"sst"` and `"subt"`,
`get_draws`/`get_draws_analog` fall through their `if/elif` and return
`None`, so every public prediction call fails with Python's
`AttributeError` at the first attribute access on `None`. -/
theorem unknown_temptype_attribute_error (e : Env)
    (solve chol : (n : ℕ) → Matrix (Fin n) (Fin n) ℚ → Matrix (Fin n) (Fin n) ℚ)
    (sqrtFn : ℚ → ℚ) (z2 : ℕ → ℕ → ℚ) (z3 : ℕ → ℕ → ℕ → ℚ)
    (st texL : List ℚ) (lat lon ps tol pmq : ℚ) (pm : Option ℚ) (nens : ℕ)
    (tt : String) (h1 : tt ≠ "sst") (h2 : tt ≠ "subt") :
    predict_tex e sqrtFn z2 st lat lon tt nens = .error .attributeError ∧
    predict_seatemp e solve chol z2 texL lat lon ps tt pm nens =
      .error .attributeError ∧
    predict_seatemp_analog e solve chol z3 texL ps tt tol pmq nens =
      .error .attributeError ∧
    predict_tex_analog e sqrtFn z2 st tt tol nens = .error .attributeError := by
  have hd : get_draws e tt = none := by simp [get_draws, h1, h2]
  have hda : get_draws_analog e tt = none := by simp [get_draws_analog, h1, h2]
  refine ⟨?_, ?_, ?_, ?_⟩
  · unfold predict_tex
    rw [hd]
    simp [noneIsAttributeError, exBind_error]
  · unfold predict_seatemp
    rw [hd]
    simp [noneIsAttributeError, exBind_error]
  · unfold predict_seatemp_analog
    rw [hd]
    simp [noneIsAttributeError, exBind_error]
  · unfold predict_tex_analog
    rw [hda]
    simp [noneIsAttributeError, exBind_error]

/-- Witness for C9 (amended) at the concrete unknown type `"qqq"`: all
four prediction calls return `AttributeError`. -/
theorem unknown_temptype_attribute_error_witness :
    predict_tex sampleEnv sqrtId zZero2 [0] 0 0 "qqq" 1 =
      .error .attributeError ∧
    predict_seatemp sampleEnv solveOne cholOne zZero2 [0] 0 0 1 "qqq" none 1 =
      .error .attributeError ∧
    predict_seatemp_analog sampleEnv solveOne cholOne zZero3 [0] 1 "qqq" 1 0 1 =
      .error .attributeError ∧
    predict_tex_analog sampleEnv sqrtId zZero2 [0] "qqq" 1 1 =
      .error .attributeError :=
  unknown_temptype_attribute_error sampleEnv solveOne cholOne sqrtId zZero2
    zZero3 [0] [0] 0 0 1 1 0 none 1 "qqq" (by decide) (by decide)

/-- Counterexample to C9 as stated: at the concrete unknown temperature
type `"xyz"`, `predict_tex` fails with an `AttributeError` (from using
the `None` that `get_draws` returned) — an unrelated Python error, not a
distinct recoverable `UnknownTemperatureType` error, which does not
exist anywhere in the code. -/
theorem unknown_temptype_counterexample :
    predict_tex sampleEnv sqrtId zZero2 [0] 0 0 "xyz" 1 =
      .error .attributeError := by
  unfold predict_tex
  have hd : get_draws sampleEnv "xyz" = none := by simp [get_draws]
  rw [hd]
  simp [noneIsAttributeError, exBind_error]

/-- Helper: a successful `get_draws` means the type was one of the two
known strings and the corresponding singleton was returned. -/
theorem get_draws_cases (e : Env) (tt : String) (d : Draws)
    (h : get_draws e tt = some d) :
    (tt = "sst" ∧ d = e.draws_sst) ∨ (tt = "subt" ∧ d = e.draws_subt) := by
  unfold get_draws at h
  split at h
  · cases h
    left
    exact ⟨by assumption, rfl⟩
  · split at h
    · cases h
      right
      exact ⟨by assumption, rfl⟩
    · cases h

/-- Helper: whenever `get_draws` succeeds, `get_seatemp` succeeds too
(both switch on the same two strings). -/
theorem get_seatemp_of_get_draws (e : Env) (tt : String) (d : Draws)
    (h : get_draws e tt = some d) : ∃ o, get_seatemp e tt = some o := by
  rcases get_draws_cases e tt d h with ⟨rfl, _⟩ | ⟨rfl, _⟩
  · exact ⟨e.seatemp_sst, rfl⟩
  · exact ⟨e.seatemp_subt, rfl⟩

/-- Helper: whenever `get_draws` succeeds, `get_tex` succeeds too. -/
theorem get_tex_of_get_draws (e : Env) (tt : String) (d : Draws)
    (h : get_draws e tt = some d) : ∃ o, get_tex e tt = some o := by
  rcases get_draws_cases e tt d h with ⟨rfl, _⟩ | ⟨rfl, _⟩
  · exact ⟨e.tex_sst, rfl⟩
  · exact ⟨e.tex_subt, rfl⟩

/-- Helper: whenever `get_draws_analog` succeeds, `get_tex` succeeds. -/
theorem get_tex_of_get_draws_analog (e : Env) (tt : String) (d : Draws)
    (h : get_draws_analog e tt = some d) : ∃ o, get_tex e tt = some o := by
  unfold get_draws_analog at h
  split at h
  · exact ⟨e.tex_sst, by simp [get_tex, *]⟩
  · split at h
    · refine ⟨e.tex_subt, ?_⟩
      unfold get_tex
      split
      · simp_all
      · simp [*]
    · cases h

/-- Helper: a bind is not an `EnsembleSizeError` outcome when neither
side can produce one. -/
theorem isEns_bind_false {α β : Type} (x : Except PyErr α)
    (f : α → Except PyErr β)
    (hx : ∀ pe, x = .error pe →
      isEnsembleSizeError (Except.error pe : Except PyErr β) = false)
    (hf : ∀ a, isEnsembleSizeError (f a) = false) :
    isEnsembleSizeError (x >>= f) = false := by
  cases x with
  | error pe =>
    rw [exBind_error]
    exact hx pe rfl
  | ok a =>
    rw [exBind_ok]
    exact hf a

/-- Helper: the only error `get_close_obs` can produce is a failing
`assert`. -/
theorem get_close_obs_error_shape (f : ObsField) (cd : ℚ × ℚ → ℚ × ℚ → ℚ)
    (lat lon dist : ℚ) (mo : ℕ) (pe : PyErr)
    (h : f.get_close_obs cd lat lon dist mo = .error pe) :
    pe = .assertionError := by
  unfold ObsField.get_close_obs at h
  simp only [] at h
  split at h
  · cases h
    rfl
  · split at h
    · cases h
      rfl
    · split at h
      · cases h
      · cases h

/-- Helper: a `mapM` of `find_alphabeta_near` calls can only fail with
some `BadLatlonError`. -/
theorem mapM_alphabeta_error_shape (d : Draws) (ls : List (ℚ × ℚ))
    (pe : PyErr)
    (h : (ls.mapM fun ll => d.find_alphabeta_near ll.1 ll.2) = .error pe) :
    ∃ q, pe = .badLatlon q := by
  induction ls with
  | nil =>
    rw [List.mapM_nil] at h
    cases h
  | cons hd tl ih =>
    rw [List.mapM_cons] at h
    cases hfa : d.find_alphabeta_near hd.1 hd.2 with
    | error e2 =>
      rw [hfa, exBind_error] at h
      cases h
      exact ⟨(hd.1, hd.2), find_alphabeta_error_shape _ _ _ _ hfa⟩
    | ok ab =>
      rw [hfa, exBind_ok] at h
      cases hm : tl.mapM fun ll => d.find_alphabeta_near ll.1 ll.2 with
      | error e3 =>
        rw [hm, exBind_error] at h
        cases h
        exact ih hm
      | ok bs =>
        rw [hm, exBind_ok] at h
        cases h


/-- C1 (amended): for every prediction call, `EnsembleSizeError` is
raised if and only if the requested ensemble size is STRICTLY GREATER
than the per-cell draw count (`if ntk < nens`), so a request exactly
equal to the available draw count does not raise; the check still
happens before any sampling work (no other outcome of the call is an
`EnsembleSizeError`, and no `Prediction` is produced on error). -/
theorem ensemble_size_strict_iff (e : Env)
    (solve chol : (n : ℕ) → Matrix (Fin n) (Fin n) ℚ → Matrix (Fin n) (Fin n) ℚ)
    (sqrtFn : ℚ → ℚ) (z2 : ℕ → ℕ → ℚ) (z3 : ℕ → ℕ → ℕ → ℚ)
    (st texL : List ℚ) (lat lon ps tol pmq : ℚ) (pm : Option ℚ) (nens : ℕ)
    (tt : String) (d da : Draws)
    (hd : get_draws e tt = some d) (hda : get_draws_analog e tt = some da) :
    (isEnsembleSizeError (predict_tex e sqrtFn z2 st lat lon tt nens) = true ↔
       d.ntk < nens) ∧
    (isEnsembleSizeError
        (predict_seatemp e solve chol z2 texL lat lon ps tt pm nens) = true ↔
       d.ntk < nens) ∧
    (isEnsembleSizeError
        (predict_seatemp_analog e solve chol z3 texL ps tt tol pmq nens) = true ↔
       d.ntk < nens) ∧
    (isEnsembleSizeError (predict_tex_analog e sqrtFn z2 st tt tol nens) = true ↔
       da.ntk < nens) := by
  obtain ⟨obsf, ho⟩ := get_seatemp_of_get_draws e tt d hd
  obtain ⟨texo, hx⟩ := get_tex_of_get_draws e tt d hd
  obtain ⟨texo2, hx2⟩ := get_tex_of_get_draws_analog e tt da hda
  refine ⟨?_, ?_, ?_, ?_⟩
  · unfold predict_tex
    rw [hd]
    simp only [noneIsAttributeError, exBind_ok]
    by_cases hn : d.ntk < nens
    · rw [if_pos hn]
      simp [exThrow, exBind_error, isEnsembleSizeError, hn]
    · rw [if_neg hn]
      refine iff_of_false ?_ hn
      rw [Bool.not_eq_true]
      apply isEns_bind_false
      · intro pe hpe
        simp [exPure] at hpe
      · intro u
        apply isEns_bind_false
        · intro pe hpe
          rw [find_alphabeta_error_shape _ _ _ _ hpe]
          rfl
        · intro ab
          apply isEns_bind_false
          · intro pe hpe
            rw [find_nearest_error_shape _ _ _ _ hpe]
            rfl
          · intro g
            rfl
  · unfold predict_seatemp
    rw [hd, ho]
    simp only [noneIsAttributeError, exBind_ok]
    by_cases hn : d.ntk < nens
    · rw [if_pos hn]
      simp [exThrow, exBind_error, isEnsembleSizeError, hn]
    · rw [if_neg hn]
      refine iff_of_false ?_ hn
      rw [Bool.not_eq_true]
      apply isEns_bind_false
      · intro pe hpe
        simp [exPure] at hpe
      · intro u
        cases pm with
        | some m =>
          apply isEns_bind_false
          · intro pe hpe
            simp [exPure] at hpe
          · intro y
            apply isEns_bind_false
            · intro pe hpe
              rw [find_alphabeta_error_shape _ _ _ _ hpe]
              rfl
            · intro ab
              apply isEns_bind_false
              · intro pe hpe
                rw [find_nearest_error_shape _ _ _ _ hpe]
                rfl
              · intro g
                rfl
        | none =>
          apply isEns_bind_false
          · intro pe hpe
            rw [get_close_obs_error_shape _ _ _ _ _ _ _ hpe]
            rfl
          · intro co
            apply isEns_bind_false
            · intro pe hpe
              simp [exPure] at hpe
            · intro y
              apply isEns_bind_false
              · intro pe hpe
                rw [find_alphabeta_error_shape _ _ _ _ hpe]
                rfl
              · intro ab
                apply isEns_bind_false
                · intro pe hpe
                  rw [find_nearest_error_shape _ _ _ _ hpe]
                  rfl
                · intro g
                  rfl
  · unfold predict_seatemp_analog
    rw [hd, hx]
    simp only [noneIsAttributeError, exBind_ok]
    by_cases hn : d.ntk < nens
    · rw [if_pos hn]
      simp [exThrow, exBind_error, isEnsembleSizeError, hn]
    · rw [if_neg hn]
      refine iff_of_false ?_ hn
      rw [Bool.not_eq_true]
      apply isEns_bind_false
      · intro pe hpe
        simp [exPure] at hpe
      · intro u
        apply isEns_bind_false
        · intro pe hpe
          obtain ⟨q, hq⟩ := mapM_alphabeta_error_shape _ _ _ hpe
          rw [hq]
          rfl
        · intro ab_list
          rfl
  · unfold predict_tex_analog
    rw [hda, hx2]
    simp only [noneIsAttributeError, exBind_ok]
    by_cases hn : da.ntk < nens
    · rw [if_pos hn]
      simp [exThrow, exBind_error, isEnsembleSizeError, hn]
    · rw [if_neg hn]
      refine iff_of_false ?_ hn
      rw [Bool.not_eq_true]
      apply isEns_bind_false
      · intro pe hpe
        simp [exPure] at hpe
      · intro u
        split
        · rw [exThrow, exBind_error]
          rfl
        · rfl

/-- Witness for C1 (amended) at the concrete sample environment with two
requested members against one available draw (and analogously for the
analog draw set with seven draws). -/
theorem ensemble_size_strict_iff_witness :
    (isEnsembleSizeError (predict_tex sampleEnv sqrtId zZero2 [0] 0 0 "sst" 2) = true ↔
       sampleEnv.draws_sst.ntk < 2) ∧
    (isEnsembleSizeError
        (predict_seatemp sampleEnv solveOne cholOne zZero2 [0] 0 0 1 "sst" none 2) = true ↔
       sampleEnv.draws_sst.ntk < 2) ∧
    (isEnsembleSizeError
        (predict_seatemp_analog sampleEnv solveOne cholOne zZero3 [0] 1 "sst" 1 0 2) = true ↔
       sampleEnv.draws_sst.ntk < 2) ∧
    (isEnsembleSizeError (predict_tex_analog sampleEnv sqrtId zZero2 [0] "sst" 1 2) = true ↔
       sampleEnv.draws_sst_analog.ntk < 2) :=
  ensemble_size_strict_iff sampleEnv solveOne cholOne sqrtId zZero2 zZero3
    [0] [0] 0 0 1 1 0 none 2 "sst" sampleEnv.draws_sst
    sampleEnv.draws_sst_analog rfl rfl

/-- Counterexample to C1 as stated: a request of exactly the available
draw count (`nens = ntk = 1`) does NOT raise `EnsembleSizeError`; the
call succeeds and produces a Prediction, because the source's check is
`if ntk < nens` rather than the claimed `nens >= ntk`. -/
theorem ensemble_size_boundary_counterexample :
    sampleEnv.draws_sst.ntk = 1 ∧
    predict_tex sampleEnv sqrtId zZero2 [0] 0 0 "sst" 1 =
      .ok { temptype := "sst", ensemble := [[0]], latlon := some (0, 0),
            modelparam_gridpoints := some [(0, 0)] } := by
  constructor
  · rfl
  · norm_num [predict_tex, sampleEnv, get_draws, noneIsAttributeError,
      Draws.ntk, Draws.find_alphabeta_near, Draws.find_nearest_latlon,
      Draws.index_near, exBind_ok, exBind_error, exThrow, exPure, clip01,
      sqrtId, zZero2, List.range_succ]

/-- C2 (amended): when the analog search finds zero matching regions,
`predict_tex_analog` aborts the process via `sys.exit` (a `SystemExit`,
not a distinct recoverable no-analogs error), while
`predict_seatemp_analog` performs no zero-match check at all and
RETURNS a `Prediction` whose ensemble is empty along the matched-location
axis (every time step carries an empty list of locations). -/
theorem analog_zero_match_behavior (e : Env)
    (solve chol : (n : ℕ) → Matrix (Fin n) (Fin n) ℚ → Matrix (Fin n) (Fin n) ℚ)
    (z3 : ℕ → ℕ → ℕ → ℚ) (sqrtFn : ℚ → ℚ) (z2 : ℕ → ℕ → ℚ)
    (texL st : List ℚ) (ps tol tol2 pmq : ℚ) (nens : ℕ) (tt : String)
    (d da : Draws) (o : TexObs)
    (hd : get_draws e tt = some d) (ho : get_tex e tt = some o)
    (hda : get_draws_analog e tt = some da)
    (hn : ¬ d.ntk < nens) (hn2 : ¬ da.ntk < nens)
    (hempty : (o.find_within_tolerance (listMean texL) tol).1 = [])
    (hempty2 : (o.find_t_within_tolerance (listMean st) tol2).2.2 = []) :
    predict_seatemp_analog e solve chol z3 texL ps tt tol pmq nens =
      .ok { temptype := tt, ensemble := List.replicate texL.length [],
            prior_mean := some pmq, prior_std := some ps,
            analog_gridpoints := [] } ∧
    predict_tex_analog e sqrtFn z2 st tt tol2 nens = .error .sysExit := by
  constructor
  · unfold predict_seatemp_analog
    rw [hd, ho]
    simp only [noneIsAttributeError, exBind_ok]
    rw [if_neg hn]
    simp only [exPure, exBind_ok, hempty]
    rw [List.mapM_nil]
    simp [exPure, exBind_ok, List.ofFn_const]
  · unfold predict_tex_analog
    rw [hda, ho]
    simp only [noneIsAttributeError, exBind_ok]
    rw [if_neg hn2]
    simp only [exPure, exBind_ok]
    rw [if_pos hempty2]
    simp [exThrow, exBind_error]

/-- Witness for C2 (amended) on the concrete sample environment, where
an input series with mean 10 matches no region (the only region's mean
is 0, tolerance 1): the seatemp analog call succeeds with an ensemble
that is empty along the location axis, and the tex analog call exits. -/
theorem analog_zero_match_behavior_witness :
    predict_seatemp_analog sampleEnv solveOne cholOne zZero3 [10] 1 "sst" 1 0 1 =
      .ok { temptype := "sst", ensemble := List.replicate ([(10 : ℚ)]).length [],
            prior_mean := some 0, prior_std := some 1,
            analog_gridpoints := [] } ∧
    predict_tex_analog sampleEnv sqrtId zZero2 [10] "sst" 1 1 =
      .error .sysExit :=
  analog_zero_match_behavior sampleEnv solveOne cholOne zZero3 sqrtId zZero2
    [10] [10] 1 1 1 0 1 "sst" sampleEnv.draws_sst sampleEnv.draws_sst_analog
    sampleEnv.tex_sst rfl rfl rfl
    (by norm_num [sampleEnv, Draws.ntk])
    (by norm_num [sampleEnv, Draws.ntk])
    (by norm_num [sampleEnv, TexObs.find_within_tolerance, TexObs.regionObs,
      listMean, List.range_succ, List.filterMap_cons, List.filterMap_nil])
    (by norm_num [sampleEnv, TexObs.find_t_within_tolerance, TexObs.regionObs,
      listMean, List.range_succ, List.filterMap_cons, List.filterMap_nil])

/-- Counterexample to C2 as stated: with zero matched regions,
`predict_seatemp_analog` does NOT abort — it returns a `Prediction`
containing an empty ensemble (the location axis has no entries). -/
theorem analog_empty_ensemble_counterexample :
    (sampleEnv.tex_sst.find_within_tolerance (listMean [10]) 1).1 = [] ∧
    predict_seatemp_analog sampleEnv solveOne cholOne zZero3 [10] 1 "sst" 1 0 1 =
      .ok { temptype := "sst", ensemble := [[]], prior_mean := some 0,
            prior_std := some 1, analog_gridpoints := [] } := by
  have hempty : (sampleEnv.tex_sst.find_within_tolerance (listMean [10]) 1).1 = [] := by
    norm_num [sampleEnv, TexObs.find_within_tolerance, TexObs.regionObs,
      listMean, List.range_succ, List.filterMap_cons, List.filterMap_nil]
  refine ⟨hempty, ?_⟩
  unfold predict_seatemp_analog
  rw [show get_tex sampleEnv "sst" = some sampleEnv.tex_sst from rfl,
      show get_draws sampleEnv "sst" = some sampleEnv.draws_sst from rfl]
  simp only [noneIsAttributeError, exBind_ok]
  rw [if_neg (by norm_num [sampleEnv, Draws.ntk])]
  simp only [exPure, exBind_ok, hempty]
  rw [List.mapM_nil]
  simp [exPure, exBind_ok, List.ofFn_const]

/-- C6 (amended): `get_close_obs` (defaults `distance = 500`,
`min_obs = 1`) returns values and distances as two projections of one
distance-sorted selection, so both are sorted ascending by distance from
the query; if the count of observations STRICTLY within `distance`
strictly exceeds `min_obs` it returns all of them, otherwise the
`min_obs` nearest regardless of distance; and the call fails (a failing
`assert`) exactly when zero observations lie strictly within `distance`
of the query — which can happen even when observations exist globally. -/
theorem get_close_obs_characterization (f : ObsField)
    (cd : ℚ × ℚ → ℚ × ℚ → ℚ) (lat lon distance : ℚ) (min_obs : ℕ)
    (hlen : (f.distance_from cd lat lon).length = f.st_obs_ave_vec.length) :
    (f.get_close_obs cd lat lon distance min_obs = .error .assertionError ↔
      (f.distance_from cd lat lon).filter (fun x => decide (x < distance)) = []) ∧
    ∀ vals dists, f.get_close_obs cd lat lon distance min_obs = .ok (vals, dists) →
      dists.Sorted (· ≤ ·) ∧
      ∃ sel : List (ℚ × ℚ),
        vals = sel.map Prod.snd ∧ dists = sel.map Prod.fst ∧
        (min_obs <
            ((f.distance_from cd lat lon).filter fun x => decide (x < distance)).length →
          sel = (List.insertionSort distLE
              ((f.distance_from cd lat lon).zip f.st_obs_ave_vec)).filter
                fun p => decide (p.1 < distance)) ∧
        (((f.distance_from cd lat lon).filter fun x =>
              decide (x < distance)).length ≤ min_obs →
          sel = (List.insertionSort distLE
              ((f.distance_from cd lat lon).zip f.st_obs_ave_vec)).take min_obs) := by
  have hne : ¬ (f.distance_from cd lat lon).length ≠ f.st_obs_ave_vec.length := by
    simpa using hlen
  have hsorted : ((f.distance_from cd lat lon).zip
      f.st_obs_ave_vec).insertionSort distLE |>.Pairwise distLE :=
    List.sorted_insertionSort distLE _
  constructor
  · unfold ObsField.get_close_obs
    rw [if_neg hne]
    simp only []
    by_cases h0 : ((f.distance_from cd lat lon).filter
        fun x => decide (x < distance)) = []
    · rw [if_pos (by simp [h0])]
      simp [h0]
    · rw [if_neg (by simp [List.length_eq_zero, h0])]
      split
      · simp [h0]
      · simp [h0]
  · intro vals dists hok
    unfold ObsField.get_close_obs at hok
    rw [if_neg hne] at hok
    simp only [] at hok
    by_cases h0 : (((f.distance_from cd lat lon).filter
        fun x => decide (x < distance)).length = 0)
    · rw [if_pos h0] at hok
      cases hok
    · rw [if_neg h0] at hok
      split at hok
      · cases hok
        refine ⟨?_, (List.insertionSort distLE
            ((f.distance_from cd lat lon).zip f.st_obs_ave_vec)).filter
              (fun p => decide (p.1 < distance)), rfl, rfl, fun _ => rfl, ?_⟩
        · exact (List.Pairwise.filter _ hsorted).map _ fun a b hab => hab
        · intro hle
          omega
      · cases hok
        refine ⟨?_, (List.insertionSort distLE
            ((f.distance_from cd lat lon).zip f.st_obs_ave_vec)).take min_obs,
            rfl, rfl, ?_, fun _ => rfl⟩
        · exact (hsorted.sublist (List.take_sublist _ _)).map _ fun a b hab => hab
        · intro hlt
          omega

/-- Witness for C6 (amended) at a concrete climatology field with one
observation at distance 1 from the query, radius 500, `min_obs = 1`. -/
theorem get_close_obs_characterization_witness :
    (sampleObsField.get_close_obs (fun _ _ => 1) 0 0 500 1 =
        .error .assertionError ↔
      (sampleObsField.distance_from (fun _ _ => 1) 0 0).filter
        (fun x => decide (x < 500)) = []) ∧
    ∀ vals dists,
      sampleObsField.get_close_obs (fun _ _ => 1) 0 0 500 1 = .ok (vals, dists) →
      dists.Sorted (· ≤ ·) ∧
      ∃ sel : List (ℚ × ℚ),
        vals = sel.map Prod.snd ∧ dists = sel.map Prod.fst ∧
        (1 < ((sampleObsField.distance_from (fun _ _ => 1) 0 0).filter
            fun x => decide (x < 500)).length →
          sel = (List.insertionSort distLE
              ((sampleObsField.distance_from (fun _ _ => 1) 0 0).zip
                sampleObsField.st_obs_ave_vec)).filter
                fun p => decide (p.1 < 500)) ∧
        (((sampleObsField.distance_from (fun _ _ => 1) 0 0).filter
              fun x => decide (x < 500)).length ≤ 1 →
          sel = (List.insertionSort distLE
              ((sampleObsField.distance_from (fun _ _ => 1) 0 0).zip
                sampleObsField.st_obs_ave_vec)).take 1) :=
  get_close_obs_characterization sampleObsField (fun _ _ => 1) 0 0 500 1 rfl

/-- Counterexample to C6 as stated: with one globally-existing
observation whose distance (600 km) exceeds the 500 km radius, the call
fails on its `assert (d < distance).sum() > 0` — so failure does NOT
only occur when zero observations exist globally. -/
theorem get_close_obs_fails_within_radius_counterexample :
    sampleObsField.st_obs_ave_vec ≠ [] ∧
    sampleObsField.get_close_obs (fun _ _ => 600) 0 0 500 1 =
      .error .assertionError := by
  constructor
  · simp [sampleObsField]
  · norm_num [sampleObsField, ObsField.get_close_obs, ObsField.distance_from]

/-- C7: `find_within_tolerance` keeps, in region-index order, exactly
the regions whose mean proxy observation lies in the closed interval
`[x - tolerance, x + tolerance]` (given that every region has at least
one observation, as numpy's NaN mean of an empty slice never matches);
it returns the matched locations flipped from the stack's native
`(lon, lat)` storage to `(lat, lon)` together with the matched means.
The search is a pure function of the stack, target and tolerance, hence
deterministic and independent of any random seed. -/
theorem find_within_tolerance_characterization (o : TexObs) (x tol : ℚ)
    (hne : ∀ k, k < o.locs.length → o.regionObs (k + 1) ≠ []) :
    ∃ matched : List ℕ,
      (o.find_within_tolerance x tol).1 =
        matched.map (fun j => ((o.locs.getD j (0, 0)).2, (o.locs.getD j (0, 0)).1)) ∧
      (o.find_within_tolerance x tol).2 =
        matched.map (fun j => listMean (o.regionObs (j + 1))) ∧
      matched.Pairwise (· < ·) ∧
      ∀ j, j ∈ matched ↔ j < o.locs.length ∧
        x - tol ≤ listMean (o.regionObs (j + 1)) ∧
        listMean (o.regionObs (j + 1)) ≤ x + tol := by
  refine ⟨(List.range o.locs.length).filter fun j =>
      decide (o.regionObs (j + 1) ≠ [] ∧
        x - tol ≤ listMean (o.regionObs (j + 1)) ∧
        listMean (o.regionObs (j + 1)) ≤ x + tol), rfl, rfl, ?_, ?_⟩
  · exact (List.pairwise_lt_range _).filter _
  · intro j
    rw [List.mem_filter, List.mem_range]
    simp only [decide_eq_true_eq]
    constructor
    · rintro ⟨hj, _, h1, h2⟩
      exact ⟨hj, h1, h2⟩
    · rintro ⟨hj, h1, h2⟩
      exact ⟨hj, hne j hj, h1, h2⟩

/-- Witness for C7 at the concrete one-region stack of the sample
environment (region mean 0), with target 0 and tolerance 1. -/
theorem find_within_tolerance_characterization_witness :
    ∃ matched : List ℕ,
      (sampleEnv.tex_sst.find_within_tolerance 0 1).1 =
        matched.map (fun j => ((sampleEnv.tex_sst.locs.getD j (0, 0)).2,
          (sampleEnv.tex_sst.locs.getD j (0, 0)).1)) ∧
      (sampleEnv.tex_sst.find_within_tolerance 0 1).2 =
        matched.map (fun j => listMean (sampleEnv.tex_sst.regionObs (j + 1))) ∧
      matched.Pairwise (· < ·) ∧
      ∀ j, j ∈ matched ↔ j < sampleEnv.tex_sst.locs.length ∧
        0 - 1 ≤ listMean (sampleEnv.tex_sst.regionObs (j + 1)) ∧
        listMean (sampleEnv.tex_sst.regionObs (j + 1)) ≤ 0 + 1 :=
  find_within_tolerance_characterization sampleEnv.tex_sst 0 1
    (by
      intro k hk
      simp only [sampleEnv, List.length_singleton] at hk
      interval_cases k
      simp [sampleEnv, TexObs.regionObs])

/-- Helper: the strided index set has `ceil(stop/step)` entries. -/
theorem npArange_length (stop step : ℕ) :
    (npArange stop step).length = (stop + step - 1) / step := by
  simp [npArange]

/-- Helper: the `i`-th strided index is `i * step`. -/
theorem npArange_getD (stop step i : ℕ) (hi : i < (npArange stop step).length) :
    (npArange stop step).getD i 0 = i * step := by
  unfold npArange at hi ⊢
  rw [List.length_map, List.length_range] at hi
  rw [List.getD_eq_getElem?_getD, List.getElem?_map, List.getElem?_range hi]
  rfl

/-- Helper: indexing a strided-gather list inside its length reads the
source list at the strided position. -/
theorem getD_map_stride (l : List ℚ) (idx : List ℕ) (i : ℕ)
    (hi : i < idx.length) :
    (idx.map fun j => l.getD j 0).getD i 0 = l.getD (idx.getD i 0) 0 := by
  have h1 : idx[i]? = some idx[i] := List.getElem?_eq_getElem hi
  rw [List.getD_eq_getElem?_getD, List.getElem?_map, h1]
  simp [List.getD_eq_getElem?_getD, h1]

/-- C5 (amended): in analog forward mode the pooled draws are
deterministically downsampled by taking every `round(poolSize/nens)`-th
element starting at index 0, but the subsampled index set has
`ceil(poolSize/ds)` entries — NOT necessarily exactly `nens` — and the
direct-simulation forward draw is run exactly once per ensemble member
(`nens` times), consuming only the first `nens` subsampled entries:
ensemble member `i` is drawn from pool entry `i * ds`. -/
theorem tex_analog_downsample (e : Env) (sqrtFn : ℚ → ℚ) (z : ℕ → ℕ → ℚ)
    (st : List ℚ) (tt : String) (tol : ℚ) (nens : ℕ) (da : Draws) (o : TexObs)
    (pool : List ℚ × List ℚ × List ℚ) (ds : ℕ) (p : Prediction)
    (hda : get_draws_analog e tt = some da) (ho : get_tex e tt = some o)
    (hpool : texAnalogPool da
      (o.find_t_within_tolerance (listMean st) tol).2.2 = pool)
    (hds : texAnalogStride pool.1.length nens = ds)
    (hfits : nens ≤ (npArange pool.1.length ds).length)
    (hok : predict_tex_analog e sqrtFn z st tt tol nens = .ok p) :
    (texAnalogSubsampleIdx pool.1.length nens).length =
      (pool.1.length + ds - 1) / ds ∧
    p.ensemble = (List.range st.length).map fun t =>
      (List.range nens).map fun i =>
        clip01 (st.getD t 0 * pool.2.1.getD (i * ds) 0 +
          pool.1.getD (i * ds) 0 +
          sqrtFn (pool.2.2.getD (i * ds) 0) * z t i) := by
  constructor
  · rw [texAnalogSubsampleIdx, hds]
    exact npArange_length _ _
  · unfold predict_tex_analog at hok
    rw [hda, ho] at hok
    simp only [noneIsAttributeError, exBind_ok] at hok
    by_cases hn : da.ntk < nens
    · rw [if_pos hn] at hok
      simp [exThrow, exBind_error] at hok
    · rw [if_neg hn] at hok
      simp only [exPure, exBind_ok] at hok
      by_cases hemp : (o.find_t_within_tolerance (listMean st) tol).2.2 = []
      · rw [if_pos hemp] at hok
        simp [exThrow, exBind_error] at hok
      · rw [if_neg hemp] at hok
        simp only [exPure, exBind_ok, Except.ok.injEq] at hok
        rw [← hok]
        rw [hpool, texAnalogSubsampleIdx, hds]
        apply List.map_congr_left
        intro t _
        apply List.map_congr_left
        intro i hi
        rw [List.mem_range] at hi
        have hilt : i < (npArange pool.1.length ds).length :=
          lt_of_lt_of_le hi hfits
    
        rw [getD_map_stride _ _ _ hilt, getD_map_stride _ _ _ hilt,
          getD_map_stride _ _ _ hilt, npArange_getD _ _ _ hilt]

set_option maxHeartbeats 2000000 in
/-- Witness for C5 (amended) on the sample environment: pool size 7,
stride 1, subsample of 7 entries, ensemble drawn from the first 5. -/
theorem tex_analog_downsample_witness :
    (texAnalogSubsampleIdx samplePool.1.length 5).length =
      (samplePool.1.length + 1 - 1) / 1 ∧
    sampleTexAnalogPrediction.ensemble =
      (List.range ([(0 : ℚ)]).length).map fun t =>
        (List.range 5).map fun i =>
          clip01 (([(0 : ℚ)]).getD t 0 * samplePool.2.1.getD (i * 1) 0 +
            samplePool.1.getD (i * 1) 0 +
            sqrtId (samplePool.2.2.getD (i * 1) 0) * zZero2 t i) :=
  tex_analog_downsample sampleEnv sqrtId zZero2 [0] "sst" 1 5
    sampleEnv.draws_sst_analog sampleEnv.tex_sst samplePool 1
    sampleTexAnalogPrediction rfl rfl
    (by norm_num [texAnalogPool, samplePool, sampleEnv,
      TexObs.find_t_within_tolerance, TexObs.regionObs, listMean,
      List.range_succ, List.filterMap_cons, List.filterMap_nil])
    (by norm_num [texAnalogStride, pythonRound, samplePool])
    (by norm_num [npArange, samplePool])
    (by
      have hfind : sampleEnv.tex_sst.find_t_within_tolerance (listMean [0]) 1 =
          ([(5, 5)], [0], [0]) := by
        norm_num [sampleEnv, TexObs.find_t_within_tolerance, TexObs.regionObs,
          listMean, List.range_succ, List.filterMap_cons, List.filterMap_nil]
      unfold predict_tex_analog
      rw [show get_tex sampleEnv "sst" = some sampleEnv.tex_sst from rfl,
          show get_draws_analog sampleEnv "sst" =
            some sampleEnv.draws_sst_analog from rfl]
      simp only [noneIsAttributeError, exBind_ok]
      rw [if_neg (by norm_num [sampleEnv, Draws.ntk])]
      simp only [exPure, exBind_ok, hfind]
      rw [if_neg (by decide)]
      norm_num [texAnalogPool, texAnalogSubsampleIdx, texAnalogStride,
        pythonRound, npArange, sampleEnv, sampleTexAnalogPrediction, clip01,
        sqrtId, zZero2, List.range_succ, List.getD_cons_zero,
        List.getD_cons_succ])

set_option maxHeartbeats 2000000 in
/-- Counterexample to C5 as stated: on the sample environment's analog
call with `nens = 5`, the pool has 7 entries and stride
`round(7/5) = 1`, so the strided subsample has 7 entries — not exactly
`nens = 5` — and the returned ensemble row has only 5 members, i.e. the
forward draw ran once per ensemble member, not once per subsampled
entry. -/
theorem tex_analog_downsample_counterexample :
    (sampleEnv.tex_sst.find_t_within_tolerance (listMean [0]) 1).2.2 = [0] ∧
    (texAnalogSubsampleIdx
      (texAnalogPool sampleEnv.draws_sst_analog [0]).1.length 5).length = 7 ∧
    (7 : ℕ) ≠ 5 ∧
    predict_tex_analog sampleEnv sqrtId zZero2 [0] "sst" 1 5 =
      .ok sampleTexAnalogPrediction := by
  refine ⟨?_, ?_, by norm_num, ?_⟩
  · norm_num [sampleEnv, TexObs.find_t_within_tolerance, TexObs.regionObs,
      listMean, List.range_succ, List.filterMap_cons, List.filterMap_nil]
  · norm_num [texAnalogPool, sampleEnv, texAnalogSubsampleIdx,
      texAnalogStride, pythonRound, npArange]
  · have hfind : sampleEnv.tex_sst.find_t_within_tolerance (listMean [0]) 1 =
        ([(5, 5)], [0], [0]) := by
      norm_num [sampleEnv, TexObs.find_t_within_tolerance, TexObs.regionObs,
        listMean, List.range_succ, List.filterMap_cons, List.filterMap_nil]
    unfold predict_tex_analog
    rw [show get_tex sampleEnv "sst" = some sampleEnv.tex_sst from rfl,
        show get_draws_analog sampleEnv "sst" =
          some sampleEnv.draws_sst_analog from rfl]
    simp only [noneIsAttributeError, exBind_ok]
    rw [if_neg (by norm_num [sampleEnv, Draws.ntk])]
    simp only [exPure, exBind_ok, hfind]
    rw [if_neg (by decide)]
    norm_num [texAnalogPool, texAnalogSubsampleIdx, texAnalogStride,
      pythonRound, npArange, sampleEnv, sampleTexAnalogPrediction, clip01,
      sqrtId, zZero2, List.range_succ, List.getD_cons_zero,
      List.getD_cons_succ]

/-- C10: in `predict_seatemp`, a caller-supplied prior mean is used and
recorded unchanged; when it is `None` the prior mean is computed, before
any sampling, as the arithmetic mean of the observation values returned
by `get_close_obs(lat, lon)`; the Gaussian prior used for every ensemble
member is `mu = prior_mean · 1` and inverse covariance
`prior_std⁻² · I`; and the returned `Prediction` records exactly the
`prior_mean` and `prior_std` values used. -/
theorem predict_seatemp_prior (e : Env)
    (solve chol : (n : ℕ) → Matrix (Fin n) (Fin n) ℚ → Matrix (Fin n) (Fin n) ℚ)
    (z : ℕ → ℕ → ℚ) (texL : List ℚ) (lat lon ps : ℚ) (tt : String)
    (pmOpt : Option ℚ) (nens : ℕ) (p : Prediction)
    (hok : predict_seatemp e solve chol z texL lat lon ps tt pmOpt nens = .ok p) :
    (∀ m, pmOpt = some m → p.prior_mean = some m) ∧
    (pmOpt = none → ∃ obsf vals dists, get_seatemp e tt = some obsf ∧
       obsf.get_close_obs e.chordDist lat lon 500 1 = .ok (vals, dists) ∧
       p.prior_mean = some (listMean vals)) ∧
    p.prior_std = some ps ∧
    (∃ d ab grid, get_draws e tt = some d ∧
       d.find_alphabeta_near lat lon = .ok ab ∧
       d.find_nearest_latlon lat lon = .ok grid ∧
       p.ensemble = List.ofFn fun t : Fin texL.length =>
         (List.range nens).map fun jj =>
           target_timeseries_pred texL.length (solve texL.length)
             (chol texL.length) (ab.1.getD jj 0) (ab.2.getD jj 0)
             (d.tau2_samples.getD jj 0) (fun s => texL.getD s 0)
             (fun _ => p.prior_mean.getD 0) (ps ^ (-2 : ℤ) • 1)
             (fun s => z jj s) t) := by
  unfold predict_seatemp at hok
  cases hgd : get_draws e tt with
  | none =>
    rw [hgd] at hok
    simp [noneIsAttributeError, exBind_error] at hok
  | some d =>
  rw [hgd] at hok
  cases hgo : get_seatemp e tt with
  | none =>
    rw [hgo] at hok
    simp [noneIsAttributeError, exBind_ok, exBind_error] at hok
  | some obsf =>
  rw [hgo] at hok
  simp only [noneIsAttributeError, exBind_ok] at hok
  by_cases hn : d.ntk < nens
  · rw [if_pos hn] at hok
    simp [exThrow, exBind_error] at hok
  · rw [if_neg hn] at hok
    simp only [exPure, exBind_ok] at hok
    cases pmOpt with
    | some m =>
      simp only [] at hok
      cases hab : d.find_alphabeta_near lat lon with
      | error pe =>
        rw [hab, exBind_error] at hok
        cases hok
      | ok ab =>
      rw [hab] at hok
      simp only [exBind_ok] at hok
      cases hg : d.find_nearest_latlon lat lon with
      | error pe =>
        rw [hg, exBind_error] at hok
        cases hok
      | ok grid =>
      rw [hg] at hok
      simp only [exBind_ok, exPure, Except.ok.injEq] at hok
      subst hok
      refine ⟨fun m2 hm2 => by injection hm2 with h2; rw [h2],
        fun hnone => Option.noConfusion hnone,
        rfl, d, ab, grid, rfl, hab, hg, rfl⟩
    | none =>
      simp only [] at hok
      cases hco : obsf.get_close_obs e.chordDist lat lon 500 1 with
      | error pe =>
        rw [hco, exBind_error] at hok
        cases hok
      | ok co =>
      rw [hco] at hok
      simp only [exBind_ok, exPure] at hok
      cases hab : d.find_alphabeta_near lat lon with
      | error pe =>
        rw [hab, exBind_error] at hok
        cases hok
      | ok ab =>
      rw [hab] at hok
      simp only [exBind_ok] at hok
      cases hg : d.find_nearest_latlon lat lon with
      | error pe =>
        rw [hg, exBind_error] at hok
        cases hok
      | ok grid =>
      rw [hg] at hok
      simp only [exBind_ok, exPure, Except.ok.injEq] at hok
      subst hok
      refine ⟨fun m2 hm2 => Option.noConfusion hm2,
        fun _ => ⟨obsf, co.1, co.2, rfl, by rw [hco], rfl⟩,
        rfl, d, ab, grid, rfl, hab, hg, rfl⟩

/-- Witness for C10 on the sample environment: a call with
`prior_mean = None` estimates the prior mean 2 from the single close
observation and records it together with `prior_std = 1`, and the
ensemble is built with prior `mu = 2·1`, `invCov = 1⁻²·I`. -/
theorem predict_seatemp_prior_witness :
    (∀ m, (none : Option ℚ) = some m →
       sampleSeatempPrediction.prior_mean = some m) ∧
    ((none : Option ℚ) = none → ∃ obsf vals dists,
       get_seatemp sampleEnv "sst" = some obsf ∧
       obsf.get_close_obs sampleEnv.chordDist 0 0 500 1 = .ok (vals, dists) ∧
       sampleSeatempPrediction.prior_mean = some (listMean vals)) ∧
    sampleSeatempPrediction.prior_std = some 1 ∧
    (∃ d ab grid, get_draws sampleEnv "sst" = some d ∧
       d.find_alphabeta_near 0 0 = .ok ab ∧
       d.find_nearest_latlon 0 0 = .ok grid ∧
       sampleSeatempPrediction.ensemble =
         List.ofFn fun t : Fin (([] : List ℚ)).length =>
           (List.range 1).map fun jj =>
             target_timeseries_pred (([] : List ℚ)).length
               (solveOne (([] : List ℚ)).length)
               (cholOne (([] : List ℚ)).length)
               (ab.1.getD jj 0) (ab.2.getD jj 0) (d.tau2_samples.getD jj 0)
               (fun s => (([] : List ℚ)).getD s 0)
               (fun _ => sampleSeatempPrediction.prior_mean.getD 0)
               ((1 : ℚ) ^ (-2 : ℤ) • 1) (fun s => zZero2 jj s) t) :=
  predict_seatemp_prior sampleEnv solveOne cholOne zZero2 [] 0 0 1 "sst"
    none 1 sampleSeatempPrediction (by
      have hco : sampleEnv.seatemp_sst.get_close_obs sampleEnv.chordDist
          0 0 500 1 = .ok ([2], [1]) := by
        norm_num [sampleEnv, ObsField.get_close_obs, ObsField.distance_from,
          List.insertionSort, List.orderedInsert]
      have hab : sampleEnv.draws_sst.find_alphabeta_near 0 0 =
          .ok ([0], [1]) := by
        norm_num [sampleEnv, Draws.find_alphabeta_near, Draws.index_near,
          exBind_ok, exBind_error, exThrow, exPure, List.range_succ]
      have hg : sampleEnv.draws_sst.find_nearest_latlon 0 0 = .ok (0, 0) := by
        norm_num [sampleEnv, Draws.find_nearest_latlon, Draws.index_near,
          exBind_ok, exBind_error, exThrow, exPure, List.range_succ]
      unfold predict_seatemp
      rw [show get_draws sampleEnv "sst" = some sampleEnv.draws_sst from rfl,
          show get_seatemp sampleEnv "sst" =
            some sampleEnv.seatemp_sst from rfl]
      simp only [noneIsAttributeError, exBind_ok]
      rw [if_neg (by norm_num [sampleEnv, Draws.ntk])]
      simp only [exPure, exBind_ok]
      rw [hco]
      simp only [exBind_ok, exPure]
      rw [hab]
      simp only [exBind_ok]
      rw [hg]
      simp only [exBind_ok, exPure]
      norm_num [sampleSeatempPrediction, listMean, List.ofFn_eq_nil_iff])
